import Mathlib

/-!
Verification of the ceramic-electric-furnace backend core against its
natural-language specification.  Each section shallowly embeds one Python
module of the repository; machine integers are `Nat`/`Int` with explicit
masking, physical quantities are `ℚ`, byte buffers are `List ℕ`.
-/

namespace Furnace

/- ============================================================
   Valve 2-bit status decoding
   (src/app/services/valve_calculator_service.py and
    src/app/services/polling_data_processor.py and
    src/app/plc/parser_config_db32.py)
   ============================================================ -/

/-- Low bit of the 2-bit group of valve `i` (1-based) in the status byte:
`bit_close = (byte >> ((i-1)*2)) & 1`. -/
def close_bit (b i : ℕ) : ℕ := (b >>> ((i - 1) * 2)) &&& 1

/-- High bit of the 2-bit group of valve `i` (1-based) in the status byte:
`bit_open = (byte >> ((i-1)*2 + 1)) & 1`. -/
def open_bit (b i : ℕ) : ℕ := (b >>> ((i - 1) * 2 + 1)) &&& 1

/-- Status code of valve `i` as built by
`ValveCalculatorService.batch_add_statuses`:
`status = f"{bit_close}{bit_open}"` (close-signal bit first). -/
def batch_status_code (b i : ℕ) : String :=
  toString (close_bit b i) ++ toString (open_bit b i)

/-- Status code as the claim words it: `concat(bit_open, bit_close)`
(open-signal bit first).  This is also what
`ConfigDrivenDB32Parser.parse_all` computes (`f"{bit_open}{bit_close}"`). -/
def db32_status_code (b i : ℕ) : String :=
  toString (open_bit b i) ++ toString (close_bit b i)

/-- Classification table of `polling_data_processor._parse_valve_state_name`:
`"10"→closed, "01"→open, "11"→error`, default `"unknown"`. -/
def parse_valve_state_name (s : String) : String :=
  if s = "10" then "closed"
  else if s = "01" then "open"
  else if s = "11" then "error"
  else "unknown"

/-- Classification used by `ConfigDrivenDB32Parser.parse_all` on its own
(open-first) code: `"01"→OPEN, "10"→CLOSED, "00"→STOPPED, "11"→ERROR`. -/
def db32_valve_state (b i : ℕ) : String :=
  let code := db32_status_code b i
  if code = "01" then "OPEN"
  else if code = "10" then "CLOSED"
  else if code = "00" then "STOPPED"
  else "ERROR"

/-- Openness integration step of
`ValveCalculatorService._calculate_openness_delta`: status `"01"` opens
(openness grows, clamped at 100), `"10"` closes (openness shrinks, clamped
at 0), `"00"` and `"11"` leave openness unchanged. -/
def calculate_openness_delta (status : String)
    (interval full_open_time full_close_time openness : ℚ) : ℚ :=
  if status = "01" then min 100 (openness + interval / full_open_time * 100)
  else if status = "10" then max 0 (openness - interval / full_close_time * 100)
  else openness

lemma close_bit_le_one (b i : ℕ) : close_bit b i ≤ 1 := by
  have h : close_bit b i = (b >>> ((i - 1) * 2)) % 2 := Nat.and_one_is_mod _
  omega

lemma open_bit_le_one (b i : ℕ) : open_bit b i ≤ 1 := by
  have h : open_bit b i = (b >>> ((i - 1) * 2 + 1)) % 2 := Nat.and_one_is_mod _
  omega

/-- C1 (counterexample): for raw byte `0b00000001` and valve index 1,
`batch_add_statuses` produces the code `"10"` (close bit first), not the
claimed `"01"`, and the processor classification of `"10"` is `closed`,
not `open`. -/
theorem batch_status_byte1_counterexample :
    batch_status_code 1 1 = "10" ∧ batch_status_code 1 1 ≠ "01" ∧
      parse_valve_state_name (batch_status_code 1 1) = "closed" ∧
      close_bit 1 1 = 1 ∧ open_bit 1 1 = 0 := by
  refine ⟨rfl, by decide, rfl, rfl, rfl⟩

/-- C1 (amended): for every status byte `b < 256` and valve index `i` in
1..4, `batch_add_statuses` computes `base = (i-1)*2`,
`bit_close = (b >> base) & 1`, `bit_open = (b >> (base+1)) & 1` and the
code `concat(bit_close, bit_open)` (close-signal bit FIRST); the
classification of that code maps the close bit to `closed` and the open
bit to `open` (`"11"→error`, `"00"→unknown`); the DB32 parser, by
contrast, builds `concat(bit_open, bit_close)` as the original claim
stated. -/
theorem batch_status_code_close_first (b i : ℕ) (_hb : b < 256)
    (_h1 : 1 ≤ i) (_h4 : i ≤ 4) :
    batch_status_code b i = toString (close_bit b i) ++ toString (open_bit b i)
    ∧ parse_valve_state_name (batch_status_code b i) =
        (if close_bit b i = 1 ∧ open_bit b i = 1 then "error"
         else if close_bit b i = 1 then "closed"
         else if open_bit b i = 1 then "open"
         else "unknown")
    ∧ db32_status_code b i = toString (open_bit b i) ++ toString (close_bit b i) := by
  refine ⟨rfl, ?_, rfl⟩
  rcases Nat.le_one_iff_eq_zero_or_eq_one.mp (close_bit_le_one b i) with hc | hc <;>
    rcases Nat.le_one_iff_eq_zero_or_eq_one.mp (open_bit_le_one b i) with ho | ho <;>
      simp only [batch_status_code, hc, ho] <;> decide

/-- C1 (witness): the amended statement instantiated at byte 1, valve 1. -/
theorem batch_status_code_close_first_witness :
    batch_status_code 1 1 = toString (close_bit 1 1) ++ toString (open_bit 1 1) :=
  (batch_status_code_close_first 1 1 (by decide) (by decide) (by decide)).1

/- ============================================================
   Recording-session ("batch") state machine
   (src/app/services/batch_service.py)
   ============================================================ -/

/-- Smelting states of `BatchService` (`SmeltingState` enum). -/
inductive SmeltingState : Type
  | idle
  | running
  | paused
  | stopped
deriving DecidableEq, Repr

/-- Property `BatchService.is_smelting`: running or paused. -/
def is_smelting (s : SmeltingState) : Bool :=
  s = SmeltingState.running ∨ s = SmeltingState.paused

/-- Property `BatchService.is_running`: only the running state writes. -/
def is_running (s : SmeltingState) : Bool := s = SmeltingState.running

/-- Mutable session state of `BatchService` (times as rational seconds). -/
structure BatchState : Type where
  state : SmeltingState
  batch_code : Option String
  last_batch_code : Option String
  start_time : Option ℚ
  pause_time : Option ℚ
  total_pause_duration : ℚ
deriving DecidableEq, Repr

/-- Fields set by `BatchService.__init__` before any state file is read. -/
def batch_init : BatchState :=
  { state := SmeltingState.idle, batch_code := none, last_batch_code := none,
    start_time := none, pause_time := none, total_pause_duration := 0 }

/-- Effect of `BatchService.start(batch_code)` on the session state, plus
the returned success flag.  Accumulator resets and file persistence are
side effects outside this state. -/
def start (code : String) (now : ℚ) (s : BatchState) : BatchState × Bool :=
  if s.state = SmeltingState.running then (s, false)
  else if s.state = SmeltingState.paused then (s, false)
  else
    ({ state := SmeltingState.running, batch_code := some code,
       last_batch_code := s.last_batch_code, start_time := some now,
       pause_time := none, total_pause_duration := 0 }, true)

/-- Effect of `BatchService.pause()`. -/
def pause (now : ℚ) (s : BatchState) : BatchState × Bool :=
  if s.state ≠ SmeltingState.running then (s, false)
  else ({ s with state := SmeltingState.paused, pause_time := some now }, true)

/-- Effect of `BatchService.resume()`: adds the current pause span to the
accumulated pause duration when a pause time is recorded. -/
def resume (now : ℚ) (s : BatchState) : BatchState × Bool :=
  if s.state ≠ SmeltingState.paused then (s, false)
  else
    let pause_span : ℚ :=
      match s.pause_time with
      | some t => now - t
      | none => 0
    ({ s with
        state := SmeltingState.running,
        pause_time := none,
        total_pause_duration := s.total_pause_duration + pause_span }, true)

/-- Effect of `BatchService.stop()`: clears the session and returns to
idle, remembering the stopped batch code. -/
def stop (s : BatchState) : BatchState × Bool :=
  if s.state = SmeltingState.idle then (s, false)
  else
    ({ state := SmeltingState.idle, batch_code := none,
       last_batch_code := s.batch_code, start_time := none,
       pause_time := none, total_pause_duration := 0 }, true)

/-- Record persisted by `BatchService._save_state_to_file` (the `state`
entry is the enum value string, default `"idle"` when absent). -/
structure PersistedState : Type where
  state : String
  batch_code : Option String
  last_batch_code : Option String
  start_time : Option ℚ
  pause_time : Option ℚ
  total_pause_duration : ℚ
deriving DecidableEq, Repr

/-- Effect of `BatchService._load_state_from_file` on the freshly
initialised state `s`; `none` models a missing state file. -/
def load_state_from_file (rec : Option PersistedState) (s : BatchState) :
    BatchState :=
  match rec with
  | none => s
  | some r =>
    if r.state = "running" ∨ r.state = "paused" then
      { state := SmeltingState.running, batch_code := r.batch_code,
        last_batch_code := r.last_batch_code, start_time := r.start_time,
        pause_time := none, total_pause_duration := r.total_pause_duration }
    else
      { s with last_batch_code := r.last_batch_code }

/-- Session states reachable by the service: construction plus state-file
recovery, then any sequence of the four transition calls. -/
inductive BatchReachable : BatchState → Prop
  | init (rec : Option PersistedState) :
      BatchReachable (load_state_from_file rec batch_init)
  | start (code : String) (now : ℚ) (s : BatchState) :
      BatchReachable s → BatchReachable (start code now s).1
  | pause (now : ℚ) (s : BatchState) :
      BatchReachable s → BatchReachable (pause now s).1
  | resume (now : ℚ) (s : BatchState) :
      BatchReachable s → BatchReachable (resume now s).1
  | stop (s : BatchState) :
      BatchReachable s → BatchReachable (stop s).1

lemma reachable_ne_stopped {s : BatchState} (h : BatchReachable s) :
    s.state ≠ SmeltingState.stopped := by
  induction h with
  | init rec =>
    cases rec with
    | none => simp [load_state_from_file, batch_init]
    | some r =>
      by_cases hr : r.state = "running" ∨ r.state = "paused" <;>
        simp [load_state_from_file, hr, batch_init]
  | start code now s hs ih =>
    by_cases h1 : s.state = SmeltingState.running
    · simp [start, h1]
    · by_cases h2 : s.state = SmeltingState.paused
      · simp [start, h1, h2]
      · simp [start, h1, h2]
  | pause now s hs ih =>
    by_cases h1 : s.state = SmeltingState.running
    · simp [pause, h1]
    · simpa [pause, h1] using ih
  | resume now s hs ih =>
    by_cases h1 : s.state = SmeltingState.paused
    · simp [resume, h1]
    · simpa [resume, h1] using ih
  | stop s hs ih =>
    by_cases h1 : s.state = SmeltingState.idle
    · simp only [stop, if_pos h1]
      exact ih
    · simp [stop, h1]

/-- C4: loading a persisted session state that shows running or paused
forces the session into running (never re-entered as paused), retaining
the persisted batch code, start time and accumulated pause duration, and
clearing the pause time. -/
theorem load_recovers_running (r : PersistedState) (s : BatchState)
    (h : r.state = "running" ∨ r.state = "paused") :
    load_state_from_file (some r) s =
      { state := SmeltingState.running, batch_code := r.batch_code,
        last_batch_code := r.last_batch_code, start_time := r.start_time,
        pause_time := none, total_pause_duration := r.total_pause_duration } := by
  simp [load_state_from_file, h]

/-- C4 (witness): a simulated restart with a persisted paused state
resumes as running with the session data retained. -/
theorem load_recovers_running_witness :
    load_state_from_file
        (some { state := "paused", batch_code := some "26010315",
                last_batch_code := none, start_time := some 1000,
                pause_time := some 2000, total_pause_duration := 30 })
        batch_init =
      { state := SmeltingState.running, batch_code := some "26010315",
        last_batch_code := none, start_time := some 1000,
        pause_time := none, total_pause_duration := 30 } :=
  load_recovers_running _ _ (Or.inr rfl)

/-- C5: `start` succeeds only from the idle state (no reachable session
state is `stopped`, and `start` reports failure from `running` and
`paused`); called while the session is already running or paused it
returns a failure result and leaves the whole session state unchanged. -/
theorem start_only_from_idle :
    (∀ s : BatchState, ∀ code : String, ∀ now : ℚ, BatchReachable s →
        (start code now s).2 = true → s.state = SmeltingState.idle)
    ∧ (∀ s : BatchState, ∀ code : String, ∀ now : ℚ,
        s.state = SmeltingState.running ∨ s.state = SmeltingState.paused →
        start code now s = (s, false)) := by
  constructor
  · intro s code now hreach hok
    have hns := reachable_ne_stopped hreach
    by_cases h1 : s.state = SmeltingState.running
    · simp [start, h1] at hok
    · by_cases h2 : s.state = SmeltingState.paused
      · simp [start, h1, h2] at hok
      · cases hs : s.state with
        | idle => rfl
        | running => exact absurd hs h1
        | paused => exact absurd hs h2
        | stopped => exact absurd hs hns
  · intro s code now h
    rcases h with h | h <;> simp [start, h]

/-- C5 (witness): the freshly initialised service starts from idle, and a
start call on a running session fails and mutates nothing. -/
theorem start_only_from_idle_witness :
    (load_state_from_file none batch_init).state = SmeltingState.idle ∧
      start "26010316" 0 { batch_init with state := SmeltingState.running } =
        ({ batch_init with state := SmeltingState.running }, false) :=
  ⟨start_only_from_idle.1 _ "26010316" 0 (BatchReachable.init none) (by decide),
   start_only_from_idle.2 _ "26010316" 0 (Or.inl rfl)⟩

/- ============================================================
   Write-buffer flushing and session gating
   (src/app/services/polling_data_processor.py flush_arc_buffer and
    flush_normal_buffer; src/app/services/valve_calculator_service.py
    flush_valve_openness_buffers)
   ============================================================ -/

/-- A buffered point destined for the time-series sink. -/
structure WritePoint : Type where
  measurement : String
  tags : List (String × String)
  fields : List (String × ℚ)
  time : ℚ
deriving DecidableEq, Repr

/-- Effect of `flush_arc_buffer` given the session state: result is
(points handed to `write_points_batch`, buffer contents afterwards).
The `build_point` conversion is modelled as always succeeding. -/
def flush_arc_buffer (st : SmeltingState) (buf : List WritePoint) :
    List WritePoint × List WritePoint :=
  if buf = [] then ([], buf)
  else if ¬ is_running st then ([], [])
  else (buf, [])

/-- Effect of `flush_normal_buffer` (DB32 sensor and hopper-weight
points); same structure as `flush_arc_buffer`. -/
def flush_normal_buffer (st : SmeltingState) (buf : List WritePoint) :
    List WritePoint × List WritePoint :=
  if buf = [] then ([], buf)
  else if ¬ is_running st then ([], [])
  else (buf, [])

/-- Effect of `flush_valve_openness_buffers` on the per-valve buffers:
gated on `is_smelting` (running OR paused); when not smelting the buffers
are cleared without being written, otherwise every buffered point is
written and the buffers are cleared. -/
def flush_valve_openness_buffers (st : SmeltingState)
    (bufs : List (List WritePoint)) :
    List WritePoint × List (List WritePoint) :=
  if ¬ is_smelting st then ([], bufs.map fun _ => [])
  else (bufs.flatten, bufs.map fun _ => [])

/-- A concrete valve-openness point as built by
`ValveCalculatorService._add_to_write_buffer`. -/
def sample_valve_point : WritePoint :=
  { measurement := "valve_openness",
    tags := [("device_type", "electric_furnace"),
             ("module_type", "valve_control"),
             ("valve_id", "1"), ("batch_code", "26010315")],
    fields := [("openness_percent", 50)],
    time := 0 }

/-- C2 (counterexample): with the session paused (hence not running) and
one buffered valve-openness point, `flush_valve_openness_buffers` writes
that point to the sink, so buffered points are not written only while the
session is running. -/
theorem valve_flush_paused_counterexample :
    (flush_valve_openness_buffers SmeltingState.paused
        [[sample_valve_point], [], [], []]).1 = [sample_valve_point]
    ∧ is_running SmeltingState.paused = false
    ∧ [sample_valve_point] ≠ ([] : List WritePoint) := by
  exact ⟨rfl, rfl, by decide⟩

/-- C2 (amended): the arc and sensor/weight buffers are written only while
the session is running and are otherwise cleared without being written;
the valve-openness buffers are written while the session is running OR
paused, and when the session is neither running nor paused they are
cleared without being written. -/
theorem flush_write_gating :
    (∀ st : SmeltingState, ∀ buf : List WritePoint, is_running st = false →
        flush_arc_buffer st buf = ([], []))
    ∧ (∀ st : SmeltingState, ∀ buf : List WritePoint, is_running st = false →
        flush_normal_buffer st buf = ([], []))
    ∧ (∀ st : SmeltingState, ∀ bufs : List (List WritePoint),
        is_smelting st = false →
        flush_valve_openness_buffers st bufs = ([], bufs.map fun _ => []))
    ∧ (∀ bufs : List (List WritePoint),
        flush_valve_openness_buffers SmeltingState.paused bufs =
          (bufs.flatten, bufs.map fun _ => []))
    ∧ (∀ buf : List WritePoint,
        flush_arc_buffer SmeltingState.running buf = (buf, [])) := by
  refine ⟨?_, ?_, ?_, ?_, ?_⟩
  · intro st buf h
    by_cases hb : buf = [] <;> simp [flush_arc_buffer, hb, h]
  · intro st buf h
    by_cases hb : buf = [] <;> simp [flush_normal_buffer, hb, h]
  · intro st bufs h
    simp [flush_valve_openness_buffers, h]
  · intro bufs
    simp [flush_valve_openness_buffers, is_smelting]
  · intro buf
    by_cases hb : buf = [] <;> simp [flush_arc_buffer, hb, is_running]

/-- C2 (witness): a paused session drops a buffered arc point without
writing it, and an idle session clears the valve buffers unwritten. -/
theorem flush_write_gating_witness :
    flush_arc_buffer SmeltingState.paused [sample_valve_point] = ([], []) ∧
      flush_valve_openness_buffers SmeltingState.idle [[sample_valve_point]] =
        ([], [[]]) :=
  ⟨flush_write_gating.1 _ _ rfl, flush_write_gating.2.2.1 _ _ rfl⟩

/- ============================================================
   Config-driven DB1 register decoder
   (src/app/plc/parser_config_db1.py)
   ============================================================ -/

/-- Byte at index `i` of a buffer; the length guards in the source keep
every dereference of this in range. -/
def byte_at (data : List ℕ) (i : ℕ) : ℕ := data.getD i 0

/-- Big-endian 16-bit word at offset `o` (struct format `>H`). -/
def be_word (data : List ℕ) (o : ℕ) : ℕ :=
  byte_at data o * 256 + byte_at data (o + 1)

/-- Big-endian 32-bit word at offset `o` (struct format `>I`). -/
def be_dword (data : List ℕ) (o : ℕ) : ℕ :=
  ((byte_at data o * 256 + byte_at data (o + 1)) * 256 +
      byte_at data (o + 2)) * 256 + byte_at data (o + 3)

/-- Signed two-complement reading of a 16-bit word (struct format `>h`). -/
def int16_of (w : ℕ) : ℤ :=
  if w < 32768 then (w : ℤ) else (w : ℤ) - 65536

/-- Signed two-complement reading of a 32-bit word (struct format `>i`). -/
def int32_of (w : ℕ) : ℤ :=
  if w < 2147483648 then (w : ℤ) else (w : ℤ) - 4294967296

/-- Value of an IEEE-754 single-precision bit pattern (struct format `>f`)
as a rational.  The non-finite patterns (exponent field 255), which have
no rational value, are mapped to 0; no claim depends on them. -/
def real32_of (bits : ℕ) : ℚ :=
  let sign : ℚ := if bits >>> 31 = 1 then -1 else 1
  let e : ℕ := (bits >>> 23) &&& 255
  let m : ℕ := bits &&& 8388607
  if e = 255 then 0
  else if e = 0 then sign * (m : ℚ) / 2 ^ 149
  else sign * ((2 ^ e : ℚ) / 2 ^ 127) * (1 + (m : ℚ) / 2 ^ 23)

/-- Round half to even, the behaviour of the Python builtin `round` on an
exactly represented value. -/
def round_half_even (q : ℚ) : ℤ :=
  if q - ⌊q⌋ < 1 / 2 then ⌊q⌋
  else if 1 / 2 < q - ⌊q⌋ then ⌊q⌋ + 1
  else if Even ⌊q⌋ then ⌊q⌋ else ⌊q⌋ + 1

/-- Python `round(q, 4)` as used on decoded REAL fields. -/
def python_round4 (q : ℚ) : ℚ := (round_half_even (q * 10000) : ℚ) / 10000

/-- One entry of the `fields` list of `config_vw_data_db1.yaml`; the type
is the upper-cased configuration string. -/
structure FieldDef : Type where
  name : String
  offset : ℕ
  type : String
deriving DecidableEq, Repr

/-- A decoded field value: signed integer, rational (REAL) or boolean. -/
inductive PValue : Type
  | int (v : ℤ)
  | real (v : ℚ)
  | bool (b : Bool)
deriving DecidableEq, Repr

/-- `ConfigDrivenDB1Parser._parse_field`: decode one field from the
buffer, returning the type's zero value whenever the field does not fit
inside the buffer, and `int 0` for unknown type names. -/
def parse_field (data : List ℕ) (f : FieldDef) : PValue :=
  if f.type = "INT" then
    if f.offset + 2 > data.length then .int 0
    else .int (int16_of (be_word data f.offset))
  else if f.type = "REAL" then
    if f.offset + 4 > data.length then .real 0
    else .real (python_round4 (real32_of (be_dword data f.offset)))
  else if f.type = "WORD" then
    if f.offset + 2 > data.length then .int 0
    else .int (be_word data f.offset)
  else if f.type = "DWORD" ∨ f.type = "UDINT" then
    if f.offset + 4 > data.length then .int 0
    else .int (be_dword data f.offset)
  else if f.type = "DINT" then
    if f.offset + 4 > data.length then .int 0
    else .int (int32_of (be_dword data f.offset))
  else if f.type = "BYTE" then
    if f.offset + 1 > data.length then .int 0
    else .int (byte_at data f.offset)
  else if f.type = "BOOL" then
    if f.offset + 1 > data.length then .bool false
    else .bool (byte_at data f.offset &&& 1 == 1)
  else .int 0

/-- Zero value of a field type: `0`, `0.0` or `false`. -/
def zero_value (t : String) : PValue :=
  if t = "REAL" then .real 0 else if t = "BOOL" then .bool false else .int 0

/-- Byte width checked by the guards of `_parse_field` for each type
(unknown types touch no bytes). -/
def field_width (t : String) : ℕ :=
  if t = "INT" then 2
  else if t = "REAL" then 4
  else if t = "WORD" then 2
  else if t = "DWORD" ∨ t = "UDINT" then 4
  else if t = "DINT" then 4
  else if t = "BYTE" then 1
  else if t = "BOOL" then 1
  else 0

/-- `ConfigDrivenDB1Parser.parse`: the per-field entries of the
`all_fields` result; a buffer shorter than the configured `total_size`
yields the error dictionary instead and decodes nothing. -/
def parse_db1 (fields : List FieldDef) (total_size : ℕ) (data : List ℕ) :
    Except String (List (String × PValue)) :=
  let n := data.length
  if n < total_size then
    .error (s!"数据长度不足: 需要 {total_size} bytes, 实际 {n} bytes")
  else
    .ok (fields.map fun f => (f.name, parse_field data f))

/-- C3 (counterexample): on a 100-byte buffer with `total_size = 182`,
`parse` aborts with the error dictionary and decodes no field at all,
even though the field at offset 0 fits in the buffer (and `_parse_field`
alone would decode it); a too-short buffer does abort decoding of the
remaining fields. -/
theorem short_buffer_aborts_parse :
    (parse_db1 [{ name := "motor_output_1", offset := 0, type := "INT" }] 182
        (List.replicate 100 0)).toOption = none
    ∧ parse_field (List.replicate 100 0)
        { name := "motor_output_1", offset := 0, type := "INT" } = .int 0
    ∧ 0 + 2 ≤ (List.replicate 100 (0 : ℕ)).length := by
  refine ⟨rfl, by decide, by simp⟩

/-- C3 (amended): `_parse_field` never throws: every field whose offset
plus width exceeds the buffer length resolves to the type's zero value
(`0`, `0.0`, `false`), and when the buffer is at least `total_size` long,
`parse` decodes every field independently (each entry is a function of
the buffer and that field alone).  No `valid` flag is attached to the
entries, and `parse` on a buffer shorter than `total_size` returns an
error dictionary without decoding any field. -/
theorem parse_field_zero_fill :
    (∀ data : List ℕ, ∀ f : FieldDef,
        data.length < f.offset + field_width f.type →
        parse_field data f = zero_value f.type)
    ∧ (∀ data : List ℕ, ∀ fields : List FieldDef, ∀ total_size : ℕ,
        total_size ≤ data.length →
        parse_db1 fields total_size data =
          .ok (fields.map fun f => (f.name, parse_field data f))) := by
  constructor
  · intro data f h
    by_cases h1 : f.type = "INT"
    · rw [field_width, if_pos h1] at h
      simp [parse_field, zero_value, h1, h]
    · by_cases h2 : f.type = "REAL"
      · rw [field_width, if_neg h1, if_pos h2] at h
        simp [parse_field, zero_value, h1, h2, h]
      · by_cases h3 : f.type = "WORD"
        · rw [field_width, if_neg h1, if_neg h2, if_pos h3] at h
          simp [parse_field, zero_value, h1, h2, h3, h]
        · by_cases h4 : f.type = "DWORD" ∨ f.type = "UDINT"
          · rw [field_width, if_neg h1, if_neg h2, if_neg h3, if_pos h4] at h
            rcases h4 with h4 | h4 <;> simp [parse_field, zero_value, h1, h2, h3, h4, h]
          · by_cases h5 : f.type = "DINT"
            · rw [field_width, if_neg h1, if_neg h2, if_neg h3, if_neg h4,
                if_pos h5] at h
              simp [parse_field, zero_value, h1, h2, h3, h4, h5, h]
            · by_cases h6 : f.type = "BYTE"
              · rw [field_width, if_neg h1, if_neg h2, if_neg h3, if_neg h4,
                  if_neg h5, if_pos h6] at h
                simp [parse_field, zero_value, h1, h2, h3, h4, h5, h6, h]
              · by_cases h7 : f.type = "BOOL"
                · rw [field_width, if_neg h1, if_neg h2, if_neg h3, if_neg h4,
                    if_neg h5, if_neg h6, if_pos h7] at h
                  simp [parse_field, zero_value, h1, h2, h3, h4, h5, h6, h7, h]
                · simp [parse_field, zero_value, h1, h2, h3, h4, h5, h6, h7]
  · intro data fields total_size h
    simp [parse_db1, Nat.not_lt.mpr h]

/-- C3 (witness): a REAL field that overruns a 2-byte buffer decodes to
`0.0`, and a full-size buffer decodes all fields. -/
theorem parse_field_zero_fill_witness :
    parse_field [7, 7] ⟨"arc_current_A_normalized", 0, "REAL"⟩ = PValue.real 0
    ∧ parse_db1 [{ name := "motor_output_1", offset := 0, type := "INT" }] 2
        [1, 2] = .ok [("motor_output_1", PValue.int 258)] := by
  constructor
  · exact parse_field_zero_fill.1 [7, 7] _ (by decide)
  · have h := parse_field_zero_fill.2 [1, 2]
      [{ name := "motor_output_1", offset := 0, type := "INT" }] 2 (by decide)
    rw [h]
    rfl

/- ============================================================
   Feed-mass accumulator
   (src/app/services/feeding_accumulator.py)
   ============================================================ -/

/-- One queued sample of `FeedingAccumulator`: hopper weight plus the
discharging signal (the request signal does not enter the calculation). -/
structure FeedSample : Type where
  weight : ℚ
  is_discharging : Bool
deriving DecidableEq, Repr

/-- The maximal contiguous `is_discharging` runs found by the scan loop of
`FeedingAccumulator.calculate_feeding`, in order. -/
def feeding_runs : List FeedSample → List (List FeedSample)
  | [] => []
  | x :: xs =>
    if x.is_discharging then
      (x :: xs.takeWhile fun s => s.is_discharging) ::
        feeding_runs (xs.dropWhile fun s => s.is_discharging)
    else
      feeding_runs xs
termination_by l => l.length
decreasing_by
  · have h : (xs.dropWhile fun s => s.is_discharging).length ≤ xs.length :=
      (List.dropWhile_suffix _).sublist.length_le
    simp only [List.length_cons]
    omega
  · simp

/-- Average of a weight list (`sum(ws) / len(ws)`). -/
def avg_weight (ws : List ℚ) : ℚ := ws.sum / ws.length

/-- Feeding amount of one run: average of the first `min 3 n` weights
minus the average of the last `min 3 n` weights. -/
def run_amount (run : List FeedSample) : ℚ :=
  let n := run.length
  let k := min 3 n
  avg_weight ((run.take k).map fun s => s.weight) -
    avg_weight ((run.drop (n - k)).map fun s => s.weight)

/-- Contribution of one run to `total_added`: the amount when the run has
at least 2 samples and the amount reaches the 1.0 kg floor, else 0. -/
def accepted_amount (run : List FeedSample) : ℚ :=
  if 2 ≤ run.length then
    if 1 ≤ run_amount run then run_amount run else 0
  else 0

/-- Sum of the accepted run amounts over the whole queue. -/
def total_added (data : List FeedSample) : ℚ :=
  ((feeding_runs data).map accepted_amount).sum

/-- The `total_added` value returned by
`FeedingAccumulator.calculate_feeding`, including its guard that skips the
analysis when the queue holds fewer than 10 samples. -/
def calculate_feeding_total_added (data : List FeedSample) : ℚ :=
  if data.length < 10 then 0 else total_added data

/-- New running total written back by `calculate_feeding`: the latest
persisted total plus the window increment. -/
def new_feeding_total (latest : ℚ) (data : List FeedSample) : ℚ :=
  latest + calculate_feeding_total_added data

/-- In-memory state of `FeedingAccumulator`: the bounded sample queue
(`deque(maxlen=60)`) and the poll counter. -/
structure FeedState : Type where
  data_queue : List FeedSample
  poll_count : ℕ
deriving DecidableEq, Repr

/-- State after `FeedingAccumulator.__init__`. -/
def feed_init : FeedState := { data_queue := [], poll_count := 0 }

/-- Append to a `deque(maxlen=60)`: a full queue drops its oldest entry. -/
def push_queue60 (q : List FeedSample) (x : FeedSample) : List FeedSample :=
  (if 60 ≤ q.length then q.tail else q) ++ [x]

/-- `FeedingAccumulator.add_measurement`: enqueue the sample, bump the
poll counter, and report whether a feeding calculation is due
(`poll_count >= 60`, i.e. every 30 s at 0.5 s polls). -/
def add_measurement (s : FeedState) (x : FeedSample) : FeedState × Bool :=
  let q := push_queue60 s.data_queue x
  let pc := s.poll_count + 1
  ({ data_queue := q, poll_count := pc }, 60 ≤ pc)

/-- `FeedingAccumulator.calculate_feeding`: reset the poll counter and
reduce the queue to the window increment. -/
def calculate_feeding (s : FeedState) : FeedState × ℚ :=
  ({ data_queue := s.data_queue, poll_count := 0 },
    calculate_feeding_total_added s.data_queue)

/-- `FeedingAccumulator.reset_for_new_batch`: clear queue and counter. -/
def reset_for_new_batch : FeedState := { data_queue := [], poll_count := 0 }

/-- Accumulator states reachable through the service operations. -/
inductive FeedReachable : FeedState → Prop
  | init : FeedReachable feed_init
  | add (s : FeedState) (x : FeedSample) :
      FeedReachable s → FeedReachable (add_measurement s x).1
  | calcTrigger (s : FeedState) :
      FeedReachable s → FeedReachable (calculate_feeding s).1
  | reset (s : FeedState) :
      FeedReachable s → FeedReachable reset_for_new_batch

lemma feed_queue_length_invariant {s : FeedState} (h : FeedReachable s) :
    min s.poll_count 60 ≤ s.data_queue.length := by
  induction h with
  | init => simp [feed_init]
  | add s x hs ih =>
    have hlen : (push_queue60 s.data_queue x).length =
        (if 60 ≤ s.data_queue.length then s.data_queue.length
         else s.data_queue.length + 1) := by
      by_cases hq : 60 ≤ s.data_queue.length
      · have hne : s.data_queue.length - 1 + 1 = s.data_queue.length := by omega
        simp [push_queue60, hq]
        omega
      · simp [push_queue60, hq]
    simp only [add_measurement] at *
    by_cases hq : 60 ≤ s.data_queue.length <;> simp [hq] at hlen <;> omega
  | calcTrigger s hs ih => simp [calculate_feeding]
  | reset s hs ih => simp [reset_for_new_batch]

lemma feeding_runs_all_discharging :
    ∀ data : List FeedSample, ∀ run ∈ feeding_runs data,
      run ≠ [] ∧ ∀ p ∈ run, p.is_discharging = true := by
  intro data
  induction data using feeding_runs.induct with
  | case1 => simp [feeding_runs]
  | case2 x xs hx ih =>
    intro run hrun
    rw [feeding_runs, if_pos hx, List.mem_cons] at hrun
    rcases hrun with hrun | hrun
    · subst hrun
      refine ⟨by simp, ?_⟩
      intro p hp
      rcases List.mem_cons.mp hp with hp | hp
      · subst hp; exact hx
      · exact List.mem_takeWhile_imp hp
    · exact ih run hrun
  | case3 x xs hx ih =>
    intro run hrun
    rw [feeding_runs, if_neg hx] at hrun
    exact ih run hrun

/-- Helper used by the witness: fold `add_measurement` over a list. -/
def add_many (s : FeedState) (l : List FeedSample) : FeedState :=
  l.foldl (fun s x => (add_measurement s x).1) s

lemma reachable_add_many {s : FeedState} (h : FeedReachable s)
    (l : List FeedSample) : FeedReachable (add_many s l) := by
  induction l generalizing s with
  | nil => simpa [add_many] using h
  | cons x xs ih =>
    have h1 : FeedReachable (add_measurement s x).1 := FeedReachable.add s x h
    simpa [add_many] using ih h1

/-- A 10-sample discharging run whose first three samples average 100.0
and whose last three average 60.0. -/
def ex_forty_run : List FeedSample :=
  [{ weight := 100, is_discharging := true },
   { weight := 100, is_discharging := true },
   { weight := 100, is_discharging := true },
   { weight := 80, is_discharging := true },
   { weight := 80, is_discharging := true },
   { weight := 80, is_discharging := true },
   { weight := 80, is_discharging := true },
   { weight := 60, is_discharging := true },
   { weight := 60, is_discharging := true },
   { weight := 60, is_discharging := true }]

/-- A full window holding the 40 kg run followed by idle samples. -/
def ex_forty : List FeedSample :=
  ex_forty_run ++
    [{ weight := 60, is_discharging := false },
     { weight := 60, is_discharging := false },
     { weight := 60, is_discharging := false },
     { weight := 60, is_discharging := false },
     { weight := 60, is_discharging := false },
     { weight := 60, is_discharging := false }]

/-- A 10-sample discharging run whose delta is 0.5 kg, below the floor. -/
def ex_half : List FeedSample :=
  [{ weight := 10, is_discharging := true },
   { weight := 10, is_discharging := true },
   { weight := 10, is_discharging := true },
   { weight := 19/2, is_discharging := true },
   { weight := 19/2, is_discharging := true },
   { weight := 19/2, is_discharging := true },
   { weight := 19/2, is_discharging := true },
   { weight := 19/2, is_discharging := true },
   { weight := 19/2, is_discharging := true },
   { weight := 19/2, is_discharging := true }]

/-- C6: whenever `add_measurement` reports that a feeding calculation is
due on a reachable accumulator state, the queue holds at least 10 samples
and `calculate_feeding` returns exactly the sum of the accepted amounts
over the maximal contiguous discharging runs of the window; every such
run is nonempty and entirely discharging; a run contributes its delta
(average of its first up-to-3 samples minus average of its last up-to-3)
exactly when it has at least 2 samples and the delta reaches 1.0 kg, and
0 otherwise; the 10-sample run averaging 100.0 over its first three and
60.0 over its last three contributes exactly 40.0, and a run whose delta
is 0.5 contributes 0. -/
theorem feeding_window_increment :
    (∀ s : FeedState, ∀ x : FeedSample, FeedReachable s →
        (add_measurement s x).2 = true →
        (calculate_feeding (add_measurement s x).1).2 =
          ((feeding_runs (add_measurement s x).1.data_queue).map
            accepted_amount).sum)
    ∧ (∀ data : List FeedSample, ∀ run ∈ feeding_runs data,
        run ≠ [] ∧ ∀ p ∈ run, p.is_discharging = true)
    ∧ (∀ run : List FeedSample, 2 ≤ run.length → 1 ≤ run_amount run →
        accepted_amount run = run_amount run)
    ∧ (∀ run : List FeedSample, run_amount run < 1 → accepted_amount run = 0)
    ∧ run_amount ex_forty_run = 40
    ∧ calculate_feeding_total_added ex_forty = 40
    ∧ run_amount ex_half = 1 / 2
    ∧ calculate_feeding_total_added ex_half = 0 := by
  refine ⟨?_, feeding_runs_all_discharging, ?_, ?_, ?_, ?_, ?_, ?_⟩
  · intro s x hs htrig
    have hinv := feed_queue_length_invariant (FeedReachable.add s x hs)
    simp only [add_measurement, decide_eq_true_eq] at htrig hinv
    have hlen : 10 ≤ (add_measurement s x).1.data_queue.length := by
      simp only [add_measurement]
      omega
    simp [calculate_feeding, calculate_feeding_total_added, total_added,
      Nat.not_lt.mpr hlen]
  · intro run h2 h1
    simp [accepted_amount, h2, h1]
  · intro run h
    have h1 : ¬ 1 ≤ run_amount run := not_le.mpr h
    by_cases h2 : 2 ≤ run.length <;> simp [accepted_amount, h2, h1]
  · norm_num [run_amount, avg_weight, ex_forty_run]
  · norm_num [calculate_feeding_total_added, total_added, feeding_runs,
      ex_forty, ex_forty_run, accepted_amount, run_amount, avg_weight]
  · norm_num [run_amount, avg_weight, ex_half]
  · norm_num [calculate_feeding_total_added, total_added, feeding_runs,
      ex_half, accepted_amount, run_amount, avg_weight]

/-- C6 (witness): the reachability hypotheses instantiated on a concrete
61-poll history, and the accept and reject rules instantiated on the
example runs. -/
theorem feeding_window_increment_witness :
    (calculate_feeding
        (add_measurement
          (add_many feed_init
            (List.replicate 59 { weight := 100, is_discharging := false }))
          { weight := 100, is_discharging := false }).1).2 =
      ((feeding_runs
          (add_measurement
            (add_many feed_init
              (List.replicate 59 { weight := 100, is_discharging := false }))
            { weight := 100, is_discharging := false }).1.data_queue).map
        accepted_amount).sum
    ∧ accepted_amount ex_forty_run = run_amount ex_forty_run
    ∧ accepted_amount ex_half = 0 :=
  ⟨feeding_window_increment.1 _ _
      (reachable_add_many FeedReachable.init _) (by decide),
   feeding_window_increment.2.2.1 ex_forty_run (by decide)
     (by norm_num [run_amount, avg_weight, ex_forty_run]),
   feeding_window_increment.2.2.2.1 ex_half
     (by norm_num [run_amount, avg_weight, ex_half])⟩

/- ============================================================
   Power/energy accumulator
   (src/app/services/power_energy_calculator.py)
   ============================================================ -/

/-- One buffered power sample of `PowerEnergyCalculator`: total three-phase
power in kW plus its timestamp in seconds. -/
structure PowerPoint : Type where
  power_total : ℚ
  timestamp : ℚ
deriving DecidableEq, Repr

/-- The trapezoid loop of
`PowerEnergyCalculator.calculate_energy_increment`: over each consecutive
pair, add `(P1 + P2) / 2 * dt_hours` with `dt_hours = (t2 - t1) / 3600`. -/
def trapezoid_delta : List PowerPoint → ℚ
  | p1 :: p2 :: rest =>
    (p1.power_total + p2.power_total) / 2 * ((p2.timestamp - p1.timestamp) / 3600)
      + trapezoid_delta (p2 :: rest)
  | _ => 0

/-- `calculate_energy_increment` on the buffered queue: fewer than 2
points yield a zero increment, otherwise the trapezoid sum. -/
def calculate_energy_increment (queue : List PowerPoint) : ℚ :=
  if queue.length < 2 then 0 else trapezoid_delta queue

/-- New running total: the latest value fetched from the sink plus the
increment. -/
def new_energy_total (latest : ℚ) (queue : List PowerPoint) : ℚ :=
  latest + calculate_energy_increment queue

/-- The claim-side trapezoidal rule: a sum over the consecutive pairs of
the queue. -/
def trapezoid_spec (queue : List PowerPoint) : ℚ :=
  ((queue.zip queue.tail).map fun pq =>
    (pq.2.timestamp - pq.1.timestamp) / 3600 *
      ((pq.1.power_total + pq.2.power_total) / 2)).sum

lemma trapezoid_delta_eq_spec :
    ∀ queue : List PowerPoint, trapezoid_delta queue = trapezoid_spec queue := by
  intro queue
  match queue with
  | [] => simp [trapezoid_delta, trapezoid_spec]
  | [p] => simp [trapezoid_delta, trapezoid_spec]
  | p1 :: p2 :: rest =>
    have ih := trapezoid_delta_eq_spec (p2 :: rest)
    simp only [trapezoid_delta, trapezoid_spec, List.tail_cons, List.zip_cons_cons,
      List.map_cons, List.sum_cons] at *
    rw [ih]
    ring

/-- C7: the periodic energy trigger integrates the buffered timestamped
power samples with the trapezoidal rule — the increment equals the sum
over consecutive sample pairs of `Δt · (P_i + P_{i+1}) / 2` with `Δt` in
hours — and the new running total is the sink value plus that increment;
for exactly two samples, 10 kW at t = 0 and 20 kW at t = 1 h, the
increment is exactly 15 kWh, not 10 or 20. -/
theorem energy_trapezoidal_increment :
    (∀ queue : List PowerPoint,
        calculate_energy_increment queue = trapezoid_spec queue)
    ∧ (∀ latest : ℚ, ∀ queue : List PowerPoint,
        new_energy_total latest queue = latest + trapezoid_spec queue)
    ∧ calculate_energy_increment
        [{ power_total := 10, timestamp := 0 },
         { power_total := 20, timestamp := 3600 }] = 15
    ∧ (15 : ℚ) ≠ 10 ∧ (15 : ℚ) ≠ 20 := by
  have hmain : ∀ queue : List PowerPoint,
      calculate_energy_increment queue = trapezoid_spec queue := by
    intro queue
    match queue with
    | [] => simp [calculate_energy_increment, trapezoid_spec]
    | [p] => simp [calculate_energy_increment, trapezoid_spec]
    | p1 :: p2 :: rest =>
      rw [calculate_energy_increment, if_neg (by simp)]
      exact trapezoid_delta_eq_spec _
  refine ⟨hmain, ?_, ?_, by norm_num, by norm_num⟩
  · intro latest queue
    rw [new_energy_total, hmain]
  · norm_num [calculate_energy_increment, trapezoid_delta]

/- ============================================================
   Polling-loop error backoff
   (src/app/services/polling_loops_v2.py, the identical handler of
    _db1_arc_polling_loop, _db32_sensor_polling_loop and
    _status_polling_loop)
   ============================================================ -/

/-- Backoff seconds slept after the n-th consecutive polling error:
`min(MAX_ERROR_WAIT, 2 ** min(error_count - 1, 4))` with
`MAX_ERROR_WAIT = 30`. -/
def backoff_wait (error_count : ℕ) : ℕ :=
  min 30 (2 ^ (min (error_count - 1) 4))

/-- Backoff formula stated by the claim and by the in-code comment
sequence 1, 2, 4, 8, 16, 30 (max): `min(30, 2 ** (n - 1))`. -/
def spec_backoff (n : ℕ) : ℕ := min 30 (2 ^ (n - 1))

/-- C8: after the sixth consecutive error the code sleeps
`2 ** min(5, 4) = 16` seconds, although the claimed formula (and the
comment in the very loop, listing 1 s, 2 s, 4 s, 8 s, 16 s, 30 s max)
gives `min(30, 2 ** 5) = 30`; the `MAX_ERROR_WAIT = 30` ceiling is dead
because the exponent is clamped at 4.  The two formulas agree for the
first five errors. -/
theorem backoff_capped_at_16 :
    backoff_wait 6 = 16 ∧ spec_backoff 6 = 30 ∧
      backoff_wait 6 ≠ spec_backoff 6 ∧
      backoff_wait 1 = 1 ∧ backoff_wait 2 = 2 ∧ backoff_wait 3 = 4 ∧
      backoff_wait 4 = 8 ∧ backoff_wait 5 = 16 ∧ backoff_wait 100 = 16 := by
  decide

/- ============================================================
   PLC connection manager
   (src/app/plc/plc_manager.py)
   ============================================================ -/

/-- Connection bookkeeping of `PLCManager` that the read and write paths
mutate. -/
structure PLCState : Type where
  connected : Bool
  consecutive_error_count : ℕ
  error_count : ℕ
  connect_count : ℕ
deriving DecidableEq, Repr

/-- `PLCManager._connect_internal`, with the success of the underlying
`snap7` connect supplied as `ok`: success marks connected, bumps the
connect counter and clears the consecutive-error counter; failure marks
disconnected and bumps the error counter. -/
def connect_internal (s : PLCState) (ok : Bool) : PLCState × Bool :=
  if s.connected then (s, true)
  else if ok then
    ({ s with
        connected := true,
        connect_count := s.connect_count + 1,
        consecutive_error_count := 0 }, true)
  else
    ({ s with connected := false, error_count := s.error_count + 1 }, false)

/-- `PLCManager.read_db`, with the outcomes of the underlying connect and
`db_read` calls supplied; returns the state afterwards and whether data
was returned.  A failure increments both error counters and, at 10
consecutive errors, force-drops the connection. -/
def read_db (s : PLCState) (connect_ok read_ok : Bool) : PLCState × Bool :=
  let c := if s.connected then (s, true) else connect_internal s connect_ok
  if c.2 = false then (c.1, false)
  else if read_ok then ({ c.1 with consecutive_error_count := 0 }, true)
  else
    let s2 : PLCState :=
      { c.1 with
          error_count := c.1.error_count + 1,
          consecutive_error_count := c.1.consecutive_error_count + 1 }
    if 10 ≤ s2.consecutive_error_count then
      ({ s2 with connected := false }, false)
    else (s2, false)

/-- `PLCManager.write_db`: same reconnect preamble and error counting as
`read_db`, but with no force-drop on the consecutive-error ceiling. -/
def write_db (s : PLCState) (connect_ok write_ok : Bool) : PLCState × Bool :=
  let c := if s.connected then (s, true) else connect_internal s connect_ok
  if c.2 = false then (c.1, false)
  else if write_ok then ({ c.1 with consecutive_error_count := 0 }, true)
  else
    ({ c.1 with
        error_count := c.1.error_count + 1,
        consecutive_error_count := c.1.consecutive_error_count + 1 }, false)

/-- A connected manager that has already seen 9 consecutive errors. -/
def plc_nine : PLCState :=
  { connected := true, consecutive_error_count := 9, error_count := 9,
    connect_count := 1 }

/-- C9 (counterexample): a connected manager with 9 consecutive errors
that suffers a failed write reaches 10 consecutive errors while still
marked connected — `write_db` never force-drops, so the claimed
invariant fails after a write. -/
theorem write_db_no_force_drop_counterexample :
    (write_db plc_nine true false).1 =
      { connected := true, consecutive_error_count := 10, error_count := 10,
        connect_count := 1 } ∧
    10 ≤ (write_db plc_nine true false).1.consecutive_error_count ∧
    (write_db plc_nine true false).1.connected = true := by
  decide

/-- C9 (amended): the consecutive-error counter increments on every
failed read and every failed write of a connected manager; `read_db`
force-drops the connection when the counter reaches the ceiling of 10,
so after any `read_db` call 10 or more consecutive errors imply the
connection is no longer marked connected; `write_db` performs no such
force-drop, so a failed write can leave the counter at the ceiling with
the connection still marked connected (the drop then happens on the next
failed read). -/
theorem plc_error_counter_invariant :
    (∀ s : PLCState, ∀ c r : Bool,
        10 ≤ (read_db s c r).1.consecutive_error_count →
        (read_db s c r).1.connected = false)
    ∧ (∀ s : PLCState, ∀ c : Bool, s.connected = true →
        (read_db s c false).1.consecutive_error_count =
          s.consecutive_error_count + 1)
    ∧ (∀ s : PLCState, ∀ c : Bool, s.connected = true →
        (write_db s c false).1.consecutive_error_count =
          s.consecutive_error_count + 1
        ∧ (write_db s c false).1.connected = true) := by
  refine ⟨?_, ?_, ?_⟩
  · intro s c r
    by_cases hc : s.connected
    · by_cases hr : r = true
      · simp [read_db, hc, hr]
      · simp only [Bool.not_eq_true] at hr
        by_cases h10 : 10 ≤ s.consecutive_error_count + 1 <;>
          simp [read_db, hc, hr, h10]
    · by_cases hok : c = true
      · by_cases hr : r = true
        · simp [read_db, connect_internal, hc, hok, hr]
        · simp only [Bool.not_eq_true] at hr
          simp [read_db, connect_internal, hc, hok, hr]
      · simp only [Bool.not_eq_true] at hok
        simp [read_db, connect_internal, hc, hok]
  · intro s c hc
    by_cases h10 : 10 ≤ s.consecutive_error_count + 1 <;>
      simp [read_db, hc, h10]
  · intro s c hc
    simp [write_db, hc]

/-- C9 (witness): the amended statement instantiated on a connected
manager with 9 prior consecutive errors: a failed read makes 10 and drops
the connection, while a failed write makes 10 and keeps it. -/
theorem plc_error_counter_invariant_witness :
    (read_db plc_nine true false).1.connected = false
    ∧ (read_db plc_nine true false).1.consecutive_error_count =
        plc_nine.consecutive_error_count + 1
    ∧ (write_db plc_nine true false).1.connected = true :=
  ⟨plc_error_counter_invariant.1 plc_nine true false (by decide),
   plc_error_counter_invariant.2.1 plc_nine true rfl,
   (plc_error_counter_invariant.2.2 plc_nine true rfl).2⟩

/- ============================================================
   Serial-scale Modbus RTU framing
   (src/app/tools/operation_modbus_weight_reader.py)
   ============================================================ -/

/-- One inner iteration of `calc_crc16`: shift right, xor with the
reflected polynomial `0xA001` when the low bit was set. -/
def crc16_round (crc : ℕ) : ℕ :=
  if crc &&& 1 = 1 then (crc >>> 1) ^^^ 0xA001 else crc >>> 1

/-- One byte of `calc_crc16`: xor the byte in, then 8 rounds. -/
def crc16_byte_step (crc b : ℕ) : ℕ := crc16_round^[8] (crc ^^^ b)

/-- `calc_crc16`: Modbus RTU CRC16 with initial value `0xFFFF`. -/
def calc_crc16 (data : List ℕ) : ℕ := data.foldl crc16_byte_step 0xFFFF

/-- `struct.pack` format `>H`: big-endian byte pair of a 16-bit value. -/
def word16_be (x : ℕ) : List ℕ := [x >>> 8, x &&& 0xFF]

/-- `struct.pack` format `<H`: little-endian byte pair of a 16-bit value. -/
def word16_le (x : ℕ) : List ℕ := [x &&& 0xFF, x >>> 8]

/-- The response frame constructed by `mock_read_weight`: slave 0x01,
function 0x03, byte count 4, the weight's high and low big-endian words,
then the little-endian CRC16 over the preceding 7 bytes. -/
def mock_weight_response (weight : ℕ) : List ℕ :=
  let high := (weight >>> 16) &&& 0xFFFF
  let low := weight &&& 0xFFFF
  let data := [0x01, 0x03, 0x04] ++ word16_be high ++ word16_be low
  data ++ word16_le (calc_crc16 data)

/-- `parse_weight_response`: validate length, function code, byte count
and CRC, then return `(high16 << 16) | low16`.  Failures are reported as
error values, never exceptions. -/
def parse_weight_response (response : List ℕ) : Except String ℕ :=
  if response.length < 9 then .error "response too short"
  else
    let func_code := byte_at response 1
    if func_code &&& 0x80 ≠ 0 then .error "modbus exception"
    else if func_code ≠ 0x03 then .error "unexpected function code"
    else if byte_at response 2 ≠ 4 then .error "unexpected byte count"
    else
      let body := response.take (response.length - 2)
      let received_crc := byte_at response (response.length - 2) +
        256 * byte_at response (response.length - 1)
      if received_crc ≠ calc_crc16 body then .error "crc mismatch"
      else
        let high := 256 * byte_at response 3 + byte_at response 4
        let low := 256 * byte_at response 5 + byte_at response 6
        .ok ((high <<< 16) ||| low)

lemma and_255_eq_mod (x : ℕ) : x &&& 255 = x % 256 := by
  have h := Nat.and_pow_two_sub_one_eq_mod x 8
  norm_num at h
  exact h

lemma shiftRight_8_eq_div (x : ℕ) : x >>> 8 = x / 256 := by
  have h := Nat.shiftRight_eq_div_pow x 8
  norm_num at h
  exact h

lemma and_65535_eq_mod (x : ℕ) : x &&& 65535 = x % 65536 := by
  have h := Nat.and_pow_two_sub_one_eq_mod x 16
  norm_num at h
  exact h

lemma shiftLeft_or_eq_add {n : ℕ} (h l : ℕ) (hl : l < 2 ^ n) :
    (h <<< n) ||| l = 2 ^ n * h + l := by
  apply Nat.eq_of_testBit_eq
  intro j
  rw [Nat.testBit_lor, Nat.testBit_shiftLeft, Nat.testBit_mul_pow_two_add h hl j]
  by_cases hj : j < n
  · have hge : ¬ j ≥ n := by omega
    simp [hj, hge]
  · have hge : j ≥ n := by omega
    have hb : l.testBit j = false :=
      Nat.testBit_lt_two_pow
        (lt_of_lt_of_le hl (Nat.pow_le_pow_right (by norm_num) hge))
    simp [hj, hge, hb]

/-- C10: for every 32-bit weight, building the `mock_read_weight`
response frame and parsing it with `parse_weight_response` succeeds and
returns exactly the original weight — `(high16 << 16) | low16`
round-trips through build-then-parse, with the CRC16 (polynomial 0xA001,
init 0xFFFF, little-endian trailer) validating. -/
theorem weight_frame_roundtrip (w : ℕ) (hw : w < 2 ^ 32) :
    parse_weight_response (mock_weight_response w) = .ok w := by
  have hsh16 : w >>> 16 = w / 65536 := by
    have h := Nat.shiftRight_eq_div_pow w 16
    norm_num at h
    exact h
  have hdivlt : w / 65536 < 65536 := by omega
  have hhigh : (w >>> 16) &&& 0xFFFF = w / 65536 := by
    rw [hsh16, and_65535_eq_mod]
    omega
  have hlow : w &&& 0xFFFF = w % 65536 := and_65535_eq_mod w
  set hi := w / 65536 with hhi
  set lo := w % 65536 with hlo
  have hframe : mock_weight_response w =
      [1, 3, 4, hi >>> 8, hi &&& 255, lo >>> 8, lo &&& 255,
       calc_crc16 [1, 3, 4, hi >>> 8, hi &&& 255, lo >>> 8, lo &&& 255] &&& 255,
       calc_crc16 [1, 3, 4, hi >>> 8, hi &&& 255, lo >>> 8, lo &&& 255] >>> 8] := by
    simp only [mock_weight_response, word16_be, word16_le, hhigh, hlow,
      List.cons_append, List.nil_append]
  rw [hframe, parse_weight_response]
  set c := calc_crc16 [1, 3, 4, hi >>> 8, hi &&& 255, lo >>> 8, lo &&& 255] with hc
  norm_num [byte_at]
  rw [← hc, if_pos (show (3 : ℕ) &&& 128 = 0 by decide)]
  have hcrc : (c &&& 255) + 256 * (c >>> 8) = c := by
    rw [and_255_eq_mod, shiftRight_8_eq_div]
    omega
  rw [if_pos hcrc]
  have hhi_recon : 256 * (hi >>> 8) + (hi &&& 255) = hi := by
    rw [and_255_eq_mod, shiftRight_8_eq_div]
    omega
  have hlo_recon : 256 * (lo >>> 8) + (lo &&& 255) = lo := by
    rw [and_255_eq_mod, shiftRight_8_eq_div]
    omega
  rw [hhi_recon, hlo_recon, shiftLeft_or_eq_add hi lo (by omega : lo < 2 ^ 16)]
  have hfinal : 2 ^ 16 * hi + lo = w := by
    rw [hhi, hlo]
    omega
  rw [hfinal]

/-- C10 (witness): the round trip at the documented weight 290 kg; the
built frame is byte-for-byte the frame listed in the module header,
`01 03 04 00 00 01 22 7B BA`, validating the CRC model. -/
theorem weight_frame_roundtrip_witness :
    mock_weight_response 290 = [1, 3, 4, 0, 0, 1, 34, 123, 186] ∧
      parse_weight_response (mock_weight_response 290) = .ok 290 :=
  ⟨by set_option maxRecDepth 8000 in decide,
   weight_frame_roundtrip 290 (by decide)⟩

end Furnace
